import Mathlib

/-!
Shallow embedding of the BrightSky Home Assistant integration
(`src/__init__.py`, `src/custom_components/brightsky/weather_update_coordinator.py`,
`src/custom_components/brightsky/sensor.py`, `src/custom_components/brightsky/weather.py`)
together with proofs about the daily-forecast aggregation, the current-weather
shape handling, the refresh error handling and the scan-interval resolution.

Python dictionaries holding weather fields are embedded in two ways:
* hourly forecast entries, which the coordinator only ever reads through
  `h.get(<fixed key>)`, become a record of `Option` fields (`HourlyEntry`);
* payloads whose very shape is in question (the `weather` value of the
  current-weather payload may be an object, an array, or anything else)
  become a JSON value type (`Json`).
Python `None` and JSON `null` are identified (`dict.get` returns `None` both
for an absent key and for a stored `None`).  Numbers are embedded as `ℚ`.
-/

/-- Calendar date, the result of Python's `datetime.date()`. -/
structure PyDate where
  year : Nat
  month : Nat
  day : Nat
deriving DecidableEq, Repr

/-- Wall-clock datetime as produced by `datetime.fromisoformat`: the literal
year/month/day/hour/minute/second fields of the timestamp text plus its UTC
offset in minutes (`none` for a naive timestamp).  No timezone conversion is
performed anywhere in the source, so only the literal fields matter. -/
structure PyDateTime where
  year : Nat
  month : Nat
  day : Nat
  hour : Nat
  minute : Nat
  second : Nat
  offsetMinutes : Option Int
deriving DecidableEq, Repr

/-- The `date()` of a parsed datetime (its wall-clock calendar date). -/
def PyDateTime.date (dt : PyDateTime) : PyDate :=
  ⟨dt.year, dt.month, dt.day⟩

/-- Value of a decimal digit character, `none` for anything else. -/
def digitVal (c : Char) : Option Nat :=
  if '0' ≤ c ∧ c ≤ '9' then some (c.toNat - '0'.toNat) else none

/-- Two-digit decimal number. -/
def num2 (a b : Char) : Option Nat := do
  let x ← digitVal a
  let y ← digitVal b
  pure (10 * x + y)

/-- Four-digit decimal number. -/
def num4 (a b c d : Char) : Option Nat := do
  let x ← num2 a b
  let y ← num2 c d
  pure (100 * x + y)

/-- Gregorian leap year, as in Python's `calendar.isleap` / `datetime`. -/
def isLeapYear (y : Nat) : Bool :=
  y % 4 = 0 ∧ (y % 100 ≠ 0 ∨ y % 400 = 0)

/-- Days in a month, used by `datetime` to validate the day field. -/
def daysInMonth (y m : Nat) : Nat :=
  if m = 2 then (if isLeapYear y then 29 else 28)
  else if m = 4 ∨ m = 6 ∨ m = 9 ∨ m = 11 then 30
  else 31

/-- Parse and validate the `±HH:MM` UTC-offset tail of a timestamp, returning
the offset in minutes.  An empty tail yields a naive datetime (`some none`);
anything else that is not a valid offset makes the whole parse fail. -/
def parseOffsetTail : List Char → Option (Option Int)
  | [] => some none
  | [sgn, h1, h2, ':', m1, m2] => do
      let hh ← num2 h1 h2
      let mm ← num2 m1 m2
      if hh ≤ 23 ∧ mm ≤ 59 then
        if sgn = '+' then some (some ((hh * 60 + mm : Nat) : Int))
        else if sgn = '-' then some (some (-((hh * 60 + mm : Nat) : Int)))
        else none
      else none
  | _ => none

/-- Parse and validate the `HH:MM:SS[±HH:MM]` tail of a timestamp. -/
def parseTimeTail : List Char → Option (Nat × Nat × Nat × Option Int)
  | h1 :: h2 :: ':' :: m1 :: m2 :: ':' :: s1 :: s2 :: rest => do
      let hh ← num2 h1 h2
      let mm ← num2 m1 m2
      let ss ← num2 s1 s2
      if hh ≤ 23 ∧ mm ≤ 59 ∧ ss ≤ 59 then
        let off ← parseOffsetTail rest
        pure (hh, mm, ss, off)
      else none
  | _ => none

/-- Models `datetime.fromisoformat` on the ISO-8601 profile the BrightSky API
emits and the source exercises: `YYYY-MM-DD`, optionally followed by `T` or a
space and `HH:MM:SS`, optionally followed by a `±HH:MM` UTC offset.  Field
ranges are validated as `datetime` does; any other text fails (`ValueError`,
modelled as `none`). -/
def fromisoformat (cs : List Char) : Option PyDateTime :=
  match cs with
  | y1 :: y2 :: y3 :: y4 :: '-' :: m1 :: m2 :: '-' :: d1 :: d2 :: rest => do
      let y ← num4 y1 y2 y3 y4
      let m ← num2 m1 m2
      let d ← num2 d1 d2
      if 1 ≤ y ∧ y ≤ 9999 ∧ 1 ≤ m ∧ m ≤ 12 ∧ 1 ≤ d ∧ d ≤ daysInMonth y m then
        match rest with
        | [] => pure ⟨y, m, d, 0, 0, 0, none⟩
        | sep :: timePart =>
            if sep = 'T' ∨ sep = ' ' then do
              let (hh, mm, ss, off) ← parseTimeTail timePart
              pure ⟨y, m, d, hh, mm, ss, off⟩
            else none
      else none
  | _ => none

/-- Models `timestamp.replace("Z", "+00:00")`: every occurrence of the
one-character pattern `Z` is replaced. -/
def replaceZ : List Char → List Char
  | [] => []
  | c :: rest =>
      if c = 'Z' then '+' :: '0' :: '0' :: ':' :: '0' :: '0' :: replaceZ rest
      else c :: replaceZ rest

/-- One hourly forecast entry (`HourlyForecastEntry`).  The coordinator reads
entries only via `h.get(<key>)`, so each field is an `Option`; `none` stands
for an absent key or a stored `None`. -/
structure HourlyEntry where
  timestamp : Option String := none
  temperature : Option ℚ := none
  precipitation : Option ℚ := none
  pressure_msl : Option ℚ := none
  relative_humidity : Option ℚ := none
  cloud_cover : Option ℚ := none
  wind_speed : Option ℚ := none
  condition : Option String := none
  icon : Option String := none
deriving DecidableEq, Repr

/-- Python truthiness of an optional string (`if not timestamp`,
`if h.get("condition")`): `None` and `""` are falsy. -/
def strTruthy : Option String → Bool
  | none => false
  | some s => s ≠ ""

/-- `datetime.fromisoformat(h.get("timestamp", "").replace("Z", "+00:00"))`,
with a failed parse (or a missing/`None` timestamp, whose default `""` never
parses) modelled as `none`. -/
def entryDT (h : HourlyEntry) : Option PyDateTime :=
  match h.timestamp with
  | none => none
  | some t => fromisoformat (replaceZ t.data)

/-- The calendar date of an entry's timestamp, when it parses. -/
def entryDate (h : HourlyEntry) : Option PyDate :=
  (entryDT h).map PyDateTime.date

/-- Zero-padded two-digit decimal, as in Python's `str(date)` formatting. -/
def pad2 (n : Nat) : String :=
  if n < 10 then "0" ++ toString n else toString n

/-- Zero-padded four-digit decimal year. -/
def pad4 (n : Nat) : String :=
  if n < 10 then "000" ++ toString n
  else if n < 100 then "00" ++ toString n
  else if n < 1000 then "0" ++ toString n
  else toString n

/-- Python `str(date)`: `YYYY-MM-DD`. -/
def pyDateStr (d : PyDate) : String :=
  pad4 d.year ++ "-" ++ pad2 d.month ++ "-" ++ pad2 d.day

/-- One derived daily summary (`DailyForecastSummary`), the dictionary built
at the end of `_aggregate_daily_data`. -/
structure DailySummary where
  timestamp : String
  temperature_min : Option ℚ
  temperature_max : Option ℚ
  precipitation : ℚ
  pressure_msl : Option ℚ
  relative_humidity : Option ℚ
  cloud_cover : Option ℚ
  wind_speed : Option ℚ
  condition : Option String
  icon : Option String
deriving DecidableEq, Repr

/-- Python `min(temps) if temps else None`: `min` over a non-empty list is a
left fold of the binary minimum over the remaining elements. -/
def pyListMin : List ℚ → Option ℚ
  | [] => none
  | x :: xs => some (xs.foldl min x)

/-- Python `max(temps) if temps else None`. -/
def pyListMax : List ℚ → Option ℚ
  | [] => none
  | x :: xs => some (xs.foldl max x)

/-- Python `sum(vals) / len(vals) if vals else None`. -/
def pyListAvg (vals : List ℚ) : Option ℚ :=
  match vals with
  | [] => none
  | _ => some (vals.sum / (vals.length : ℚ))

/-- `_condition_to_icon` (weather_update_coordinator.py lines 241-252). -/
def condition_to_icon (condition : String) : String :=
  if condition = "dry" then "clear-day"
  else if condition = "fog" then "fog"
  else if condition = "rain" then "rain"
  else if condition = "sleet" then "sleet"
  else if condition = "snow" then "snow"
  else if condition = "hail" then "hail"
  else if condition = "thunderstorm" then "thunderstorm"
  else "clear-day"

/-- First-occurrence deduplication, worker: `seen` holds the values already
emitted. -/
def dedupFirstGo : List String → List String → List String
  | [], _ => []
  | x :: xs, seen =>
      if x ∈ seen then dedupFirstGo xs seen else x :: dedupFirstGo xs (x :: seen)

/-- First-occurrence deduplication of a list (keeps each value's first copy). -/
def dedupFirst (xs : List String) : List String := dedupFirstGo xs []

/-- Models `max(set(daytime_conditions), key=daytime_conditions.count)`
(weather_update_coordinator.py line 220).  Python's `max` keeps the first
iterated element whose key strictly exceeds the current best, so the result
is the first value attaining the maximum count in the iteration order of the
set.  CPython iterates a set of strings in hash order, which depends on the
per-process hash seed, so on a tie of counts the source's result is not
determined by the source text; this embedding iterates the values in
first-occurrence order, which agrees with the source whenever the maximum
count is uniquely attained. -/
def maxBySetCount (xs : List String) : Option String :=
  match dedupFirst xs with
  | [] => none
  | v :: vs => some (vs.foldl (fun best c => if xs.count c > xs.count best then c else best) v)

/-- The daytime condition scan of `_aggregate_daily_data` (lines 206-214):
conditions of entries whose timestamp re-parses with hour in `[6, 18]` and
whose `condition` is truthy, in input order. -/
def daytimeConditions (hourly_data : List HourlyEntry) : List String :=
  hourly_data.filterMap (fun h =>
    match entryDT h with
    | none => none
    | some dt =>
        if 6 ≤ dt.hour ∧ dt.hour ≤ 18 ∧ strTruthy h.condition then h.condition else none)

/-- `_aggregate_daily_data` (weather_update_coordinator.py lines 179-239).
The source's early `return {}` for an empty `hourly_data` is unreachable from
`get_daily_forecast` (groups are never empty); on `[]` this embedding returns
the same record the remaining code would (every aggregate empty). -/
def aggregate_daily_data (hourly_data : List HourlyEntry) (date : PyDate) : DailySummary :=
  let temps := hourly_data.filterMap (·.temperature)
  let temp_min := pyListMin temps
  let temp_max := pyListMax temps
  let precip_sum := (hourly_data.map (fun h => h.precipitation.getD 0)).sum
  let avg_pressure := pyListAvg (hourly_data.filterMap (·.pressure_msl))
  let avg_humidity := pyListAvg (hourly_data.filterMap (·.relative_humidity))
  let avg_cloud_cover := pyListAvg (hourly_data.filterMap (·.cloud_cover))
  let avg_wind_speed := pyListAvg (hourly_data.filterMap (·.wind_speed))
  let conds := daytimeConditions hourly_data
  let condIcon : Option String × Option String :=
    match maxBySetCount conds with
    | some c => (some c, some (condition_to_icon c))
    | none =>
        match hourly_data with
        | [] => (none, none)
        | h0 :: _ => (h0.condition, h0.icon)
  { timestamp := pyDateStr date ++ "T12:00:00+00:00"
    temperature_min := temp_min
    temperature_max := temp_max
    precipitation := precip_sum
    pressure_msl := avg_pressure
    relative_humidity := avg_humidity
    cloud_cover := avg_cloud_cover
    wind_speed := avg_wind_speed
    condition := condIcon.1
    icon := condIcon.2 }

/-- The grouping loop of `get_daily_forecast` (lines 141-175): a single
forward scan carrying `current_date` and the current group `daily_data`,
emitting a finished group whenever the parsed date changes and once more at
the end.  Entries whose timestamp is falsy or fails to parse are skipped. -/
def dailyGroups : List HourlyEntry → Option PyDate → List HourlyEntry →
    List (PyDate × List HourlyEntry)
  | [], currentDate, dailyData =>
      match currentDate with
      | some d => if dailyData.isEmpty then [] else [(d, dailyData)]
      | none => []
  | h :: rest, currentDate, dailyData =>
      match entryDate h with
      | none => dailyGroups rest currentDate dailyData
      | some date =>
          let cur := currentDate.getD date
          if date = cur then dailyGroups rest (some cur) (dailyData ++ [h])
          else
            (if dailyData.isEmpty then [] else [(cur, dailyData)]) ++
              dailyGroups rest (some date) [h]

/-- `get_hourly_forecast` (lines 123-130) applied to the stored forecast
weather array: returns the first `hours` entries. -/
def get_hourly_forecast (weather : List HourlyEntry) (hours : Nat) : List HourlyEntry :=
  weather.take hours

/-- `get_daily_forecast` (lines 132-177): group the first `days * 24` hourly
entries into contiguous same-date runs, aggregate each run, and truncate to
the first `days` summaries. -/
def get_daily_forecast (weather : List HourlyEntry) (days : Nat) : List DailySummary :=
  let hourly_data := get_hourly_forecast weather (days * 24)
  if hourly_data.isEmpty then []
  else
    ((dailyGroups hourly_data none []).map
      (fun g => aggregate_daily_data g.2 g.1)).take days

/-- JSON-like values for payloads whose shape is in question.  Python `None`
and JSON `null` are both `Json.null`; numbers are rationals. -/
inductive Json where
  | null : Json
  | bool : Bool → Json
  | num : ℚ → Json
  | str : String → Json
  | arr : List Json → Json
  | obj : List (String × Json) → Json

/-- Python exceptions that the embedded accessors can raise. -/
inductive PyError where
  | attributeError : PyError
  | typeError : PyError
deriving DecidableEq, Repr

/-- Python truthiness of a JSON value (`if not x`). -/
def pyTruthy : Json → Bool
  | .null => false
  | .bool b => b
  | .num q => q ≠ 0
  | .str s => s ≠ ""
  | .arr xs => ¬ xs.isEmpty
  | .obj fs => ¬ fs.isEmpty

/-- Python `d.get(key)` on an association list: the first binding wins,
absence yields `None`. -/
def dictGet : List (String × Json) → String → Json
  | [], _ => .null
  | (k, v) :: rest, key => if k = key then v else dictGet rest key

/-- Python `d.get(key, default)`. -/
def dictGetD : List (String × Json) → String → Json → Json
  | [], _, dflt => dflt
  | (k, v) :: rest, key, dflt => if k = key then v else dictGetD rest key dflt

/-- Python `x.get(key)` on an arbitrary value: only dictionaries have `.get`,
anything else raises `AttributeError`. -/
def pyGetAttrGet (x : Json) (key : String) : Except PyError Json :=
  match x with
  | .obj fs => .ok (dictGet fs key)
  | _ => .error .attributeError

/-- Python `key in d` for a dictionary. -/
def dictHasKey : List (String × Json) → String → Bool
  | [], _ => false
  | (k, _) :: rest, key => if k = key then true else dictHasKey rest key

/-- `_get_current_sensor_value` (sensor.py lines 103-123), the normalizer of
the current-weather payload.  `data` is the coordinator's combined payload
dictionary (always a dict: it is what `_async_update_data` returned); the
record lives under `data["current"]["weather"]` as an object or an array.
`Except.ok .null` models returning `None`; an uncaught exception is
`Except.error` (the function has no handler). -/
def get_current_sensor_value (data : List (String × Json)) (key : String) :
    Except PyError Json :=
  if ¬ pyTruthy (.obj data) ∨ ¬ dictHasKey data "current" then .ok .null
  else
    match dictGet data "current" with
    | .obj cfs =>
        let current_weather := dictGet cfs "weather"
        if ¬ pyTruthy current_weather then .ok .null
        else
          match current_weather with
          | .arr (x :: _) =>
              if ¬ pyTruthy x then .ok .null else pyGetAttrGet x key
          | .arr [] => .ok .null
          | .obj wfs =>
              if ¬ pyTruthy (.obj wfs) then .ok .null else .ok (dictGet wfs key)
          | _ => .ok .null
    | _ => .error .attributeError

/-- `get_current_weather` (weather_update_coordinator.py lines 107-121):
`data` is the coordinator's stored payload (`None` before any success).
Returns `data.get("current", {}).get("weather")`; the type-check on the
result only logs a warning, the value is returned regardless.  A non-dict
`"current"` value would raise `AttributeError` (no handler here). -/
def get_current_weather (data : Option (List (String × Json))) : Except PyError Json :=
  match data with
  | none => .ok .null
  | some fs =>
      if ¬ pyTruthy (.obj fs) then .ok .null
      else
        match dictGetD fs "current" (.obj []) with
        | .obj cfs => .ok (dictGet cfs "weather")
        | _ => .error .attributeError

/-- `visibility / 1000` (weather.py line 326) applied to the looked-up
`visibility` value: `None` is passed through (`if visibility is not None`),
a number is divided, a Python `bool` divides as 0 or 1, and any other type
raises `TypeError` (caught by the surrounding handler). -/
def visibilityDivide : Json → Except PyError (Option ℚ)
  | .null => .ok none
  | .num q => .ok (some (q / 1000))
  | .bool b => .ok (some ((if b then 1 else 0) / 1000))
  | _ => .error .typeError

/-- The `try` block of `BrightSkyWeather.visibility` (weather.py lines
315-327): shape dispatch, lookup of `"visibility"`, and the meter→kilometer
division. -/
def visibilityTry (current : Json) : Except PyError (Option ℚ) :=
  match current with
  | .arr [] => .ok none
  | .arr (x :: _) =>
      if ¬ pyTruthy x then visibilityDivide .null
      else
        match x with
        | .obj fs => visibilityDivide (dictGet fs "visibility")
        | _ => .error .attributeError
  | .obj fs => visibilityDivide (dictGet fs "visibility")
  | _ => .ok none

/-- `BrightSkyWeather.visibility` (weather.py lines 308-330): the
`get_current_weather` call sits outside the `try`, so its exceptions
propagate; exceptions inside the `try` degrade to `None`. -/
def visibilityProp (data : Option (List (String × Json))) : Except PyError (Option ℚ) :=
  match get_current_weather data with
  | .error e => .error e
  | .ok current =>
      if ¬ pyTruthy current then .ok none
      else
        .ok (match visibilityTry current with
             | .ok v => v
             | .error _ => none)

/-- `CONDITION_MAP.get(c, "sunny")` (const.py lines 71-79). -/
def CONDITION_MAP (c : String) : String :=
  if c = "dry" then "sunny"
  else if c = "fog" then "fog"
  else if c = "rain" then "rainy"
  else if c = "sleet" then "snowy-rainy"
  else if c = "snow" then "snowy"
  else if c = "hail" then "hail"
  else if c = "thunderstorm" then "lightning"
  else "sunny"

/-- `ICON_MAP.get(i, "sunny")` (const.py lines 82-95). -/
def ICON_MAP (i : String) : String :=
  if i = "clear-day" then "sunny"
  else if i = "clear-night" then "clear-night"
  else if i = "partly-cloudy-day" then "partlycloudy"
  else if i = "partly-cloudy-night" then "partlycloudy"
  else if i = "cloudy" then "cloudy"
  else if i = "fog" then "fog"
  else if i = "wind" then "windy"
  else if i = "rain" then "rainy"
  else if i = "sleet" then "snowy-rainy"
  else if i = "snow" then "snowy"
  else if i = "hail" then "hail"
  else if i = "thunderstorm" then "lightning"
  else "sunny"

/-- `ICON_MAP.get(icon, "sunny")` on an arbitrary truthy JSON value: only a
string can match a key; any other hashable value falls to the default, and
an unhashable one raises inside the `try`, also ending in `"sunny"`. -/
def iconLookup : Json → String
  | .str s => ICON_MAP s
  | _ => "sunny"

/-- `CONDITION_MAP.get(condition, "sunny")` on an arbitrary truthy value. -/
def conditionLookup : Json → String
  | .str s => CONDITION_MAP s
  | _ => "sunny"

/-- Icon-then-condition presentation of one current-weather record
(weather.py lines 352-370): icon mapping takes priority, condition mapping
is the fallback, `"sunny"` the default; `.get` on a non-dict record raises
`AttributeError`, which the surrounding handler turns into `"sunny"`. -/
def condFromItem : Json → String
  | .obj fs =>
      let icon := dictGet fs "icon"
      if pyTruthy icon then iconLookup icon
      else
        let condition := dictGet fs "condition"
        if pyTruthy condition then conditionLookup condition
        else "sunny"
  | _ => "sunny"

/-- The `try` body of `BrightSkyWeather.condition` (weather.py lines
342-377), every failure path degraded to `"sunny"` by the handler. -/
def conditionBody (current : Json) : String :=
  match current with
  | .arr [] => "sunny"
  | .arr (x :: _) => if ¬ pyTruthy x then "sunny" else condFromItem x
  | .obj fs => condFromItem (.obj fs)
  | _ => "sunny"

/-- `BrightSkyWeather.condition` (weather.py lines 332-377):
`get_current_weather` is called outside the `try`; a `None` current record
returns `"sunny"` before the `try`, and everything inside the `try` is
caught and degraded to `"sunny"`. -/
def conditionProp (data : Option (List (String × Json))) : Except PyError String :=
  match get_current_weather data with
  | .error e => .error e
  | .ok current =>
      match current with
      | .null => .ok "sunny"
      | _ => .ok (conditionBody current)

/-- The two failure kinds of a refresh: `aiohttp.ClientError` and any other
exception, each carrying its message. -/
inductive FetchError where
  | clientError : String → FetchError
  | otherError : String → FetchError
deriving DecidableEq, Repr

/-- The `UpdateFailed` signal raised by `_async_update_data`, carrying the
formatted message and (via `raise ... from err`) the underlying cause. -/
structure UpdateFailed where
  message : String
  cause : FetchError
deriving DecidableEq, Repr

/-- `_async_update_data` (weather_update_coordinator.py lines 46-69) as a
function of the outcomes of the two sequential fetches (the forecast fetch
only happens when the current fetch succeeded): a `ClientError` raises
`UpdateFailed("Error communicating with API: ...")`, any other exception
raises `UpdateFailed("Unexpected error: ...")`, both chaining the cause;
on success the combined payload dictionary is returned. -/
def async_update_data (currentResult forecastResult : Except FetchError Json) :
    Except UpdateFailed (Json × Json) :=
  match currentResult with
  | .error (.clientError m) => .error ⟨"Error communicating with API: " ++ m, .clientError m⟩
  | .error (.otherError m) => .error ⟨"Unexpected error: " ++ m, .otherError m⟩
  | .ok current_data =>
      match forecastResult with
      | .error (.clientError m) => .error ⟨"Error communicating with API: " ++ m, .clientError m⟩
      | .error (.otherError m) => .error ⟨"Unexpected error: " ++ m, .otherError m⟩
      | .ok forecast_data => .ok (current_data, forecast_data)

/-- Modelled from the spec: the host's `DataUpdateCoordinator` (Home
Assistant framework code, not under `src/`) stores the value returned by
`_async_update_data` as the new snapshot when the refresh succeeds, and on
an `UpdateFailed` keeps the previous snapshot untouched ("failure leaves the
previous CoordinatorState untouched", "successful result replaces
CoordinatorState atomically"). -/
def coordinatorStep (prev : Option (Json × Json))
    (result : Except UpdateFailed (Json × Json)) : Option (Json × Json) :=
  match result with
  | .ok payload => some payload
  | .error _ => prev

/-- `DEFAULT_SCAN_INTERVAL` (const.py line 32). -/
def DEFAULT_SCAN_INTERVAL : Int := 1800

/-- `_get_config_value` (src/__init__.py lines 110-117) specialised to the
scan-interval key: the options value when the key is present in a non-empty
options mapping, else the entry-data value, else `None`. -/
def get_config_value (options data : Option Int) : Option Int :=
  match options with
  | some v => some v
  | none => data

/-- Scan-interval resolution in `async_setup_entry` (src/__init__.py lines
40-53): `_get_config_value`, then the falsy fallback to
`entry.data.get(CONF_SCAN_INTERVAL, DEFAULT_SCAN_INTERVAL)` (`if not
scan_interval`, so a stored 0 is treated like an absent value), then
`max(scan_interval, 60)`. -/
def resolveScanInterval (options data : Option Int) : Int :=
  let scan_interval := get_config_value options data
  let scan_interval : Int :=
    match scan_interval with
    | none => data.getD DEFAULT_SCAN_INTERVAL
    | some v => if v = 0 then data.getD DEFAULT_SCAN_INTERVAL else v
  max scan_interval 60

/-- Number of contiguous runs of equal dates still to be closed, given that a
run with date `c` is currently open. -/
def runGo : PyDate → List PyDate → Nat
  | _, [] => 1
  | c, d :: rest => if d = c then runGo c rest else runGo d rest + 1

/-- Number of contiguous runs of equal dates in a list. -/
def runCount : List PyDate → Nat
  | [] => 0
  | d :: rest => runGo d rest

theorem one_le_runGo (l : List PyDate) : ∀ c : PyDate, 1 ≤ runGo c l := by
  induction l with
  | nil => intro c; simp [runGo]
  | cons d rest ih =>
      intro c
      by_cases hdc : d = c
      · simpa [runGo, hdc] using ih c
      · simp only [runGo, hdc, if_false]
        exact Nat.le_add_left 1 (runGo d rest)

theorem runGo_le (l : List PyDate) : ∀ c : PyDate, runGo c l ≤ l.length + 1 := by
  induction l with
  | nil => intro c; simp [runGo]
  | cons d rest ih =>
      intro c
      by_cases hdc : d = c
      · simp only [runGo, hdc, if_true, List.length_cons]
        exact Nat.le_trans (ih c) (Nat.succ_le_succ (Nat.le_succ _))
      · simp only [runGo, hdc, if_false, List.length_cons]
        exact Nat.succ_le_succ (ih d)

theorem runCount_le_length (l : List PyDate) : runCount l ≤ l.length := by
  cases l with
  | nil => simp [runCount]
  | cons d rest => simpa [runCount, List.length_cons] using runGo_le rest d

theorem one_le_runCount {l : List PyDate} (h : l ≠ []) : 1 ≤ runCount l := by
  cases l with
  | nil => exact absurd rfl h
  | cons d rest => exact one_le_runGo rest d

theorem length_dailyGroups_open (l : List HourlyEntry) :
    ∀ (c : PyDate) (daily : List HourlyEntry), daily ≠ [] →
      (dailyGroups l (some c) daily).length = runGo c (l.filterMap entryDate) := by
  induction l with
  | nil =>
      intro c daily hd
      simp [dailyGroups, runGo, List.isEmpty_iff, hd]
  | cons h rest ih =>
      intro c daily hd
      cases he : entryDate h with
      | none => simp [dailyGroups, he, List.filterMap_cons, ih c daily hd]
      | some d =>
          by_cases hdc : d = c
          · have hne : daily ++ [h] ≠ [] := by simp
            simp [dailyGroups, he, hdc, List.filterMap_cons, runGo, ih c (daily ++ [h]) hne]
          · have hne : [h] ≠ ([] : List HourlyEntry) := by simp
            simp only [dailyGroups, he, Option.getD_some, hdc, if_false,
              List.filterMap_cons, List.isEmpty_iff, hd, runGo]
            rw [List.length_append, ih d [h] hne]
            simp [List.isEmpty_iff, hd, Nat.add_comm]

theorem length_dailyGroups (l : List HourlyEntry) :
    (dailyGroups l none []).length = runCount (l.filterMap entryDate) := by
  induction l with
  | nil => simp [dailyGroups, runCount]
  | cons h rest ih =>
      cases he : entryDate h with
      | none => simp [dailyGroups, he, List.filterMap_cons, ih]
      | some d =>
          have hne : [h] ≠ ([] : List HourlyEntry) := by simp
          simp only [dailyGroups, he, Option.getD_none, if_pos rfl, List.filterMap_cons,
            runCount, List.nil_append]
          exact length_dailyGroups_open rest d [h] hne

theorem length_get_daily_forecast (weather : List HourlyEntry) (days : Nat) :
    (get_daily_forecast weather days).length =
      min days (runCount ((weather.take (days * 24)).filterMap entryDate)) := by
  unfold get_daily_forecast get_hourly_forecast
  by_cases he : (weather.take (days * 24)).isEmpty
  · rw [List.isEmpty_iff] at he
    simp [he, runCount]
  · rw [if_neg he, List.length_take, List.length_map, length_dailyGroups]

theorem dailyGroups_filter_parseable (l : List HourlyEntry) :
    ∀ (cur : Option PyDate) (daily : List HourlyEntry),
      dailyGroups (l.filter (fun h => (entryDate h).isSome)) cur daily =
        dailyGroups l cur daily := by
  induction l with
  | nil => intro cur daily; rfl
  | cons h rest ih =>
      intro cur daily
      cases he : entryDate h with
      | none =>
          have hf : (fun h => (entryDate h).isSome) h = false := by simp [he]
          rw [List.filter_cons_of_neg (by simp [he])]
          rw [ih cur daily]
          simp [dailyGroups, he]
      | some d =>
          rw [List.filter_cons_of_pos (by simp [he])]
          simp only [dailyGroups, he]
          cases cur with
          | none => simp only [Option.getD_none, if_pos rfl, ih]
          | some c =>
              by_cases hdc : d = c
              · simp only [Option.getD_some, hdc, if_pos rfl, ih]
              · simp only [Option.getD_some, hdc, if_false, ih]

theorem foldl_min_le_init (l : List ℚ) : ∀ x : ℚ, l.foldl min x ≤ x := by
  induction l with
  | nil => intro x; simp
  | cons a rest ih =>
      intro x
      calc rest.foldl min (min x a) ≤ min x a := ih (min x a)
        _ ≤ x := min_le_left x a

theorem foldl_min_le_mem (l : List ℚ) : ∀ (x a : ℚ), a ∈ l → l.foldl min x ≤ a := by
  induction l with
  | nil => intro x a ha; exact absurd ha (List.not_mem_nil a)
  | cons b rest ih =>
      intro x a ha
      rcases List.mem_cons.1 ha with hab | har
      · subst hab
        calc rest.foldl min (min x a) ≤ min x a := foldl_min_le_init rest (min x a)
          _ ≤ a := min_le_right x a
      · exact ih (min x b) a har

theorem init_le_foldl_max (l : List ℚ) : ∀ x : ℚ, x ≤ l.foldl max x := by
  induction l with
  | nil => intro x; simp
  | cons a rest ih =>
      intro x
      calc x ≤ max x a := le_max_left x a
        _ ≤ rest.foldl max (max x a) := ih (max x a)

theorem mem_le_foldl_max (l : List ℚ) : ∀ (x a : ℚ), a ∈ l → a ≤ l.foldl max x := by
  induction l with
  | nil => intro x a ha; exact absurd ha (List.not_mem_nil a)
  | cons b rest ih =>
      intro x a ha
      rcases List.mem_cons.1 ha with hab | har
      · subst hab
        calc a ≤ max x a := le_max_right x a
          _ ≤ rest.foldl max (max x a) := init_le_foldl_max rest (max x a)
      · exact ih (max x b) a har

theorem aggregate_temperature_min (hourly : List HourlyEntry) (date : PyDate) :
    (aggregate_daily_data hourly date).temperature_min =
      pyListMin (hourly.filterMap HourlyEntry.temperature) := rfl

theorem aggregate_temperature_max (hourly : List HourlyEntry) (date : PyDate) :
    (aggregate_daily_data hourly date).temperature_max =
      pyListMax (hourly.filterMap HourlyEntry.temperature) := rfl

/-- Hourly entry on 2024-01-01, 10:00 UTC. -/
def entryJan1Morning : HourlyEntry := { timestamp := some "2024-01-01T10:00:00Z" }

/-- Hourly entry on 2024-01-02, 10:00 UTC. -/
def entryJan2Morning : HourlyEntry := { timestamp := some "2024-01-02T10:00:00Z" }

/-- Hourly entry on 2024-01-01 again, 22:00 UTC (non-contiguous repeat). -/
def entryJan1Evening : HourlyEntry := { timestamp := some "2024-01-01T22:00:00Z" }

/-- Hourly entry whose timestamp does not parse. -/
def entryBadTimestamp : HourlyEntry := { timestamp := some "bad" }

/-- Claim C1, as stated, is false on the code on both sides: the
non-contiguous date sequence Jan 1, Jan 2, Jan 1 covers 2 distinct calendar
dates but produces 3 summaries, and a non-empty input whose only entry has
an unparsable timestamp produces 0 summaries. -/
theorem c1_counterexample :
    (get_daily_forecast [entryJan1Morning, entryJan2Morning, entryJan1Evening] 7).length = 3 ∧
    (([entryJan1Morning, entryJan2Morning, entryJan1Evening].filterMap entryDate).dedup).length = 2 ∧
    (2 : Nat) < 3 ∧
    (get_daily_forecast [entryBadTimestamp] 7).length = 0 ∧
    [entryBadTimestamp].length = 1 ∧
    (1 : Nat) ≤ 7 := by
  refine ⟨by decide, by decide, by decide, by decide, by decide, by decide⟩

/-- Claim C1, amended: for every input and `maxDays`, the aggregation yields
at most `maxDays` summaries and no more summaries than there are entries
with a parseable timestamp among the first `maxDays * 24` input entries, and
at least one summary whenever `maxDays ≥ 1` and at least one of those
entries has a parseable timestamp. -/
theorem c1_amended (weather : List HourlyEntry) (days : Nat) :
    (get_daily_forecast weather days).length ≤ days ∧
    (get_daily_forecast weather days).length ≤
      ((weather.take (days * 24)).filterMap entryDate).length ∧
    (1 ≤ days → (weather.take (days * 24)).filterMap entryDate ≠ [] →
      1 ≤ (get_daily_forecast weather days).length) := by
  rw [length_get_daily_forecast]
  refine ⟨Nat.min_le_left _ _, ?_, ?_⟩
  · exact Nat.le_trans (Nat.min_le_right _ _) (runCount_le_length _)
  · intro hdays hne
    exact le_min hdays (one_le_runCount hne)

/-- Witness for the amended claim C1 at a concrete input: one parseable
entry among the first 168, `maxDays = 7`, at least one summary. -/
theorem c1_amended_witness :
    (1 : Nat) ≤ 7 ∧
    ([entryJan1Morning].take (7 * 24)).filterMap entryDate ≠ [] ∧
    1 ≤ (get_daily_forecast [entryJan1Morning] 7).length :=
  ⟨by decide, by decide,
    (c1_amended [entryJan1Morning] 7).2.2 (by decide) (by decide)⟩

/-- A day group whose two daytime entries carry the tied conditions
`"rain"` (first) and `"dry"` (second), one occurrence each. -/
def tieGroup : List HourlyEntry :=
  [ { timestamp := some "2024-01-05T10:00:00+00:00", condition := some "rain" },
    { timestamp := some "2024-01-05T11:00:00+00:00", condition := some "dry" } ]

/-- Claim C2: at the tied input, the daytime scan yields `["rain", "dry"]`
with equal counts, so `max(set(daytime_conditions), key=count)` in the
source picks whichever of the two CPython's seed-dependent set order yields
first; the tie-break the claim prescribes (first value attaining the
maximum count) would deterministically pick `"rain"`. -/
theorem c2_tie_eval :
    daytimeConditions tieGroup = ["rain", "dry"] ∧
    (daytimeConditions tieGroup).count "rain" = 1 ∧
    (daytimeConditions tieGroup).count "dry" = 1 ∧
    maxBySetCount (daytimeConditions tieGroup) = some "rain" := by
  refine ⟨by decide, by decide, by decide, by decide⟩

/-- Claim C3: the daily aggregation partitions by contiguous runs of equal
calendar date — in general the number of summaries is `maxDays ⊓ (number of
contiguous equal-date runs among the parseable entries of the truncated
input)`, and on the concrete sequence Jan 1, Jan 2, Jan 1 it yields 3
summaries even though only 2 distinct dates occur. -/
theorem c3_contiguous_runs :
    (∀ (weather : List HourlyEntry) (days : Nat),
      (get_daily_forecast weather days).length =
        min days (runCount ((weather.take (days * 24)).filterMap entryDate))) ∧
    (get_daily_forecast [entryJan1Morning, entryJan2Morning, entryJan1Evening] 7).length = 3 ∧
    (([entryJan1Morning, entryJan2Morning, entryJan1Evening].filterMap entryDate).dedup).length = 2 :=
  ⟨length_get_daily_forecast, by decide, by decide⟩

/-- Claim C4: entries with a missing or unparsable timestamp are skipped
entirely — the grouping loop gives the same groups (hence the same
summaries) as on the input with those entries removed, whatever the loop
state, and the concrete input `[bad, Jan-1 entry]` yields exactly one
summary, for 2024-01-01, aggregating only the good entry. -/
theorem c4_unparsable_skipped :
    (∀ (l : List HourlyEntry) (cur : Option PyDate) (daily : List HourlyEntry),
      dailyGroups (l.filter (fun h => (entryDate h).isSome)) cur daily =
        dailyGroups l cur daily) ∧
    (get_daily_forecast
        [entryBadTimestamp, { timestamp := some "2024-01-01T10:00:00Z", temperature := some 1 }] 7).map
      (fun s => (s.timestamp, s.temperature_min, s.temperature_max, s.condition, s.icon)) =
      [("2024-01-01T12:00:00+00:00", some 1, some 1, none, none)] :=
  ⟨dailyGroups_filter_parseable, by decide⟩

/-- Claim C8: a group's `temperature_min`/`temperature_max` are computed
only over entries that report a temperature — if no entry reports one both
are `None`; any reported temperature lies between them; and for a singleton
group with a temperature both equal that temperature. -/
theorem c8_temperature_min_max (hourly : List HourlyEntry) (date : PyDate) :
    ((∀ h ∈ hourly, h.temperature = none) →
      (aggregate_daily_data hourly date).temperature_min = none ∧
      (aggregate_daily_data hourly date).temperature_max = none) ∧
    (∀ (h : HourlyEntry) (t : ℚ), h ∈ hourly → h.temperature = some t →
      ∃ m M, (aggregate_daily_data hourly date).temperature_min = some m ∧
        (aggregate_daily_data hourly date).temperature_max = some M ∧
        m ≤ t ∧ t ≤ M) ∧
    (∀ (e : HourlyEntry) (t : ℚ), hourly = [e] → e.temperature = some t →
      (aggregate_daily_data hourly date).temperature_min = some t ∧
      (aggregate_daily_data hourly date).temperature_max = some t) := by
  refine ⟨?_, ?_, ?_⟩
  · intro hall
    rw [aggregate_temperature_min, aggregate_temperature_max,
      List.filterMap_eq_nil_iff.2 hall]
    exact ⟨rfl, rfl⟩
  · intro h t hmem hsome
    have ht : t ∈ hourly.filterMap HourlyEntry.temperature :=
      List.mem_filterMap.2 ⟨h, hmem, hsome⟩
    rw [aggregate_temperature_min, aggregate_temperature_max]
    cases hfm : hourly.filterMap HourlyEntry.temperature with
    | nil => rw [hfm] at ht; exact absurd ht (List.not_mem_nil t)
    | cons x xs =>
        rw [hfm] at ht
        refine ⟨xs.foldl min x, xs.foldl max x, rfl, rfl, ?_, ?_⟩
        · rcases List.mem_cons.1 ht with htx | htxs
          · subst htx; exact foldl_min_le_init xs t
          · exact foldl_min_le_mem xs x t htxs
        · rcases List.mem_cons.1 ht with htx | htxs
          · subst htx; exact init_le_foldl_max xs t
          · exact mem_le_foldl_max xs x t htxs
  · intro e t hsingle hsome
    subst hsingle
    rw [aggregate_temperature_min, aggregate_temperature_max]
    simp [List.filterMap_cons, hsome, pyListMin, pyListMax]

/-- Hourly entry on 2024-01-01 reporting temperature 3. -/
def entryJan1Temp3 : HourlyEntry :=
  { timestamp := some "2024-01-01T10:00:00Z", temperature := some 3 }

/-- Witness for claim C8 at a singleton group reporting temperature 3. -/
theorem c8_temperature_min_max_witness :
    (aggregate_daily_data [entryJan1Temp3] ⟨2024, 1, 1⟩).temperature_min = some 3 ∧
    (aggregate_daily_data [entryJan1Temp3] ⟨2024, 1, 1⟩).temperature_max = some 3 :=
  (c8_temperature_min_max _ ⟨2024, 1, 1⟩).2.2 _ 3 rfl rfl

theorem gcsv_weather (w : Json) (key : String) :
    get_current_sensor_value [("current", Json.obj [("weather", w)])] key =
      if ¬ pyTruthy w then .ok .null
      else
        match w with
        | .arr (x :: _) => if ¬ pyTruthy x then .ok .null else pyGetAttrGet x key
        | .arr [] => .ok .null
        | .obj wfs => if ¬ pyTruthy (.obj wfs) then .ok .null else .ok (dictGet wfs key)
        | _ => .ok .null := rfl

/-- Claim C5, amended: the normalizer accepts the record as a single
non-empty object or as the first element of an array (of any length),
yielding the same record lookup for both; an empty array, an empty object,
a falsy first array element and any non-object, non-array shape all yield
`None`; but an array whose first element is truthy and not an object raises
`AttributeError` instead of yielding `None`. -/
theorem c5_amended (r : List (String × Json)) (key : String) :
    (r ≠ [] →
      get_current_sensor_value [("current", Json.obj [("weather", Json.obj r)])] key =
        .ok (dictGet r key) ∧
      ∀ rest : List Json,
        get_current_sensor_value
          [("current", Json.obj [("weather", Json.arr (Json.obj r :: rest))])] key =
          .ok (dictGet r key)) ∧
    get_current_sensor_value [("current", Json.obj [("weather", Json.arr [])])] key =
      .ok .null ∧
    get_current_sensor_value [("current", Json.obj [("weather", Json.obj [])])] key =
      .ok .null ∧
    (∀ s : String,
      get_current_sensor_value [("current", Json.obj [("weather", Json.str s)])] key =
        .ok .null) ∧
    (∀ q : ℚ,
      get_current_sensor_value [("current", Json.obj [("weather", Json.num q)])] key =
        .ok .null) ∧
    (∀ b : Bool,
      get_current_sensor_value [("current", Json.obj [("weather", Json.bool b)])] key =
        .ok .null) ∧
    get_current_sensor_value [("current", Json.obj [("weather", Json.null)])] key =
      .ok .null ∧
    (∀ (x : Json) (rest : List Json), pyTruthy x → (∀ fs, x ≠ Json.obj fs) →
      get_current_sensor_value
        [("current", Json.obj [("weather", Json.arr (x :: rest))])] key =
        .error .attributeError) := by
  refine ⟨?_, ?_, ?_, ?_, ?_, ?_, ?_, ?_⟩
  · intro hr
    constructor
    · rw [gcsv_weather]
      simp [pyTruthy, List.isEmpty_iff, hr]
    · intro rest
      rw [gcsv_weather]
      simp [pyTruthy, List.isEmpty_iff, hr, pyGetAttrGet]
  · rw [gcsv_weather]; rfl
  · rw [gcsv_weather]; rfl
  · intro s
    rw [gcsv_weather]
    by_cases hs : s = ""
    · simp [pyTruthy, hs]
    · simp [pyTruthy, hs]
  · intro q
    rw [gcsv_weather]
    by_cases hq : q = 0
    · simp [pyTruthy, hq]
    · simp [pyTruthy, hq]
  · intro b
    rw [gcsv_weather]
    cases b <;> simp [pyTruthy]
  · rw [gcsv_weather]; rfl
  · intro x rest hx hnotobj
    rw [gcsv_weather]
    have harr : pyTruthy (Json.arr (x :: rest)) = true := by simp [pyTruthy]
    simp only [harr, not_true, if_false]
    simp only [hx, not_true, if_false]
    cases x with
    | null => rfl
    | bool b => rfl
    | num q => rfl
    | str s => rfl
    | arr xs => rfl
    | obj fs => exact absurd rfl (hnotobj fs)

/-- Claim C5, as stated, is false at a concrete input: a one-element array
whose element is the (truthy, non-record) number 5 is not among the accepted
shapes, so the claim requires `None`, but the code raises `AttributeError`
(`current_data.get(key)` on an `int`). -/
theorem c5_counterexample :
    get_current_sensor_value [("current", Json.obj [("weather", Json.arr [Json.num 5])])]
      "temperature" = .error .attributeError ∧
    (get_current_sensor_value [("current", Json.obj [("weather", Json.arr [Json.num 5])])]
      "temperature" = .ok .null) = False :=
  ⟨rfl, eq_false (fun h => Except.noConfusion h)⟩

/-- Witness for the amended claim C5: the record `{"temperature": 5}` read
through both accepted shapes, and the `AttributeError` at a truthy
non-record element. -/
theorem c5_amended_witness :
    get_current_sensor_value
      [("current", Json.obj [("weather", Json.obj [("temperature", Json.num 5)])])]
      "temperature" = .ok (.num 5) ∧
    get_current_sensor_value
      [("current", Json.obj [("weather", Json.arr [Json.obj [("temperature", Json.num 5)]])])]
      "temperature" = .ok (.num 5) ∧
    get_current_sensor_value
      [("current", Json.obj [("weather", Json.arr [Json.str "x"])])]
      "temperature" = .error .attributeError := by
  have h := c5_amended [("temperature", Json.num 5)] "temperature"
  have h1 := h.1 (by simp)
  refine ⟨?_, ?_, ?_⟩
  · rw [h1.1]; rfl
  · rw [h1.2 []]; rfl
  · exact (c5_amended [] "temperature").2.2.2.2.2.2.2 (Json.str "x") []
      (by simp [pyTruthy]) (fun fs h => Json.noConfusion h)

/-- Claim C6: a refresh whose current-weather or forecast fetch fails (with
a transport error or any other exception) raises the `UpdateFailed` signal
carrying the underlying cause; the coordinator snapshot is left untouched by
a failed refresh and replaced wholesale by a successful one. -/
theorem c6_update_failed (currentResult forecastResult : Except FetchError Json)
    (prev : Option (Json × Json)) :
    (∀ e : FetchError, currentResult = .error e →
      ∃ u : UpdateFailed,
        async_update_data currentResult forecastResult = .error u ∧ u.cause = e) ∧
    (∀ (c : Json) (e : FetchError), currentResult = .ok c → forecastResult = .error e →
      ∃ u : UpdateFailed,
        async_update_data currentResult forecastResult = .error u ∧ u.cause = e) ∧
    (∀ u : UpdateFailed, async_update_data currentResult forecastResult = .error u →
      coordinatorStep prev (async_update_data currentResult forecastResult) = prev) ∧
    (∀ c f : Json, currentResult = .ok c → forecastResult = .ok f →
      async_update_data currentResult forecastResult = .ok (c, f) ∧
      coordinatorStep prev (async_update_data currentResult forecastResult) = some (c, f)) := by
  refine ⟨?_, ?_, ?_, ?_⟩
  · intro e he
    subst he
    cases e with
    | clientError m => exact ⟨_, rfl, rfl⟩
    | otherError m => exact ⟨_, rfl, rfl⟩
  · intro c e hc he
    subst hc; subst he
    cases e with
    | clientError m => exact ⟨_, rfl, rfl⟩
    | otherError m => exact ⟨_, rfl, rfl⟩
  · intro u hu
    rw [hu]
    rfl
  · intro c f hc hf
    subst hc; subst hf
    exact ⟨rfl, rfl⟩

/-- Witness for claim C6: a failing current fetch with a transport cause,
and a fully successful refresh, at concrete payloads. -/
theorem c6_update_failed_witness :
    (∃ u : UpdateFailed,
      async_update_data (.error (.clientError "boom")) (.ok Json.null) = .error u ∧
        u.cause = FetchError.clientError "boom") ∧
    coordinatorStep (some (Json.null, Json.null))
      (async_update_data (.error (.clientError "boom")) (.ok Json.null)) =
      some (Json.null, Json.null) ∧
    coordinatorStep none (async_update_data (.ok (Json.num 1)) (.ok (Json.num 2))) =
      some (Json.num 1, Json.num 2) := by
  refine ⟨?_, ?_, ?_⟩
  · exact (c6_update_failed (.error (.clientError "boom")) (.ok Json.null)
      (some (Json.null, Json.null))).1 (FetchError.clientError "boom") rfl
  · exact (c6_update_failed (.error (.clientError "boom")) (.ok Json.null)
      (some (Json.null, Json.null))).2.2.1
      ⟨"Error communicating with API: " ++ "boom", FetchError.clientError "boom"⟩ rfl
  · exact ((c6_update_failed (.ok (Json.num 1)) (.ok (Json.num 2)) none).2.2.2
      (Json.num 1) (Json.num 2) rfl rfl).2

/-- Claim C7: contrary to the never-raise design, the sensor accessor
`_get_current_sensor_value` raises `AttributeError` on the malformed (but
successfully fetched) payload `{"current": {"weather": ["x"]}}`; the
weather-entity `condition` accessor, by contrast, degrades a record with
neither icon nor condition to its `"sunny"` default without raising. -/
theorem c7_sensor_value_raises :
    get_current_sensor_value [("current", Json.obj [("weather", Json.arr [Json.str "x"])])]
      "temperature" = .error .attributeError ∧
    conditionProp (some [("current", Json.obj [("weather", Json.obj [("temperature", Json.num 1)])])]) =
      .ok "sunny" ∧
    conditionProp (some [("current", Json.obj [("weather", Json.arr [Json.str "x"])])]) =
      .ok "sunny" :=
  ⟨rfl, rfl, rfl⟩

/-- Claim C9, as stated, is false at a concrete input: a user-supplied
interval of 0 in the options of an entry whose stored data holds 1800 is
below 60 but resolves to 1800, not to exactly 60. -/
theorem c9_counterexample :
    resolveScanInterval (some 0) (some 1800) = 1800 ∧
    (0 : Int) < 60 ∧
    (60 : Int) < 1800 := by
  refine ⟨by decide, by decide, by decide⟩

/-- Claim C9, amended: the interval actually used is always at least 60
seconds, a supplied nonzero value below 60 is clamped to exactly 60, a
value of at least 60 is used as given, but a supplied 0 is falsy and is
replaced by the entry-data value (or the 1800 default) before clamping. -/
theorem c9_amended (options data : Option Int) :
    60 ≤ resolveScanInterval options data ∧
    (∀ v : Int, v ≠ 0 → v < 60 → resolveScanInterval (some v) data = 60) ∧
    (∀ v : Int, 60 ≤ v → resolveScanInterval (some v) data = v) ∧
    resolveScanInterval (some 0) data = max (data.getD DEFAULT_SCAN_INTERVAL) 60 := by
  refine ⟨le_max_right _ _, ?_, ?_, ?_⟩
  · intro v hv0 hv60
    simp only [resolveScanInterval, get_config_value, hv0, if_false]
    exact max_eq_right (le_of_lt hv60)
  · intro v hv
    have hv0 : v ≠ 0 := by
      intro h
      rw [h] at hv
      exact absurd hv (by decide)
    simp only [resolveScanInterval, get_config_value, hv0, if_false]
    exact max_eq_left hv
  · simp [resolveScanInterval, get_config_value]

/-- Witness for the amended claim C9: 30 clamps to exactly 60, 3600 is used
as given, and the whole resolution respects the 60-second floor. -/
theorem c9_amended_witness :
    resolveScanInterval (some 30) none = 60 ∧
    resolveScanInterval (some 3600) (some 1800) = 3600 ∧
    60 ≤ resolveScanInterval none none := by
  refine ⟨?_, ?_, ?_⟩
  · exact (c9_amended (some 30) none).2.1 30 (by decide) (by decide)
  · exact (c9_amended (some 3600) (some 1800)).2.2.1 3600 (by decide)
  · exact (c9_amended none none).1

/-- Claim C10: the weather entity's visibility accessor divides a present
(numeric) visibility by 1000 — meters to kilometers — for both accepted
record shapes, and returns `None` when no visibility is present or no data
is stored. -/
theorem c10_visibility (cfs : List (String × Json)) (v : ℚ) (rest : List Json) :
    (dictGet cfs "visibility" = .num v →
      visibilityProp (some [("current", Json.obj [("weather", Json.obj cfs)])]) =
        .ok (some (v / 1000)) ∧
      visibilityProp (some [("current", Json.obj [("weather", Json.arr (Json.obj cfs :: rest))])]) =
        .ok (some (v / 1000))) ∧
    (dictGet cfs "visibility" = .null →
      visibilityProp (some [("current", Json.obj [("weather", Json.obj cfs)])]) =
        .ok none ∧
      visibilityProp (some [("current", Json.obj [("weather", Json.arr (Json.obj cfs :: rest))])]) =
        .ok none) ∧
    visibilityProp none = .ok none := by
  have hgcw : ∀ w : Json,
      get_current_weather (some [("current", Json.obj [("weather", w)])]) = .ok w :=
    fun w => rfl
  refine ⟨?_, ?_, rfl⟩
  · intro hv
    have hcfs : cfs ≠ [] := by
      intro h
      rw [h] at hv
      exact Json.noConfusion hv
    constructor
    · simp only [visibilityProp, hgcw]
      have ht : pyTruthy (Json.obj cfs) = true := by
        simp [pyTruthy, List.isEmpty_iff, hcfs]
      simp only [ht, not_true, if_false, visibilityTry, hv, visibilityDivide]
    · simp only [visibilityProp, hgcw]
      have ht : pyTruthy (Json.arr (Json.obj cfs :: rest)) = true := by
        simp [pyTruthy]
      have htx : pyTruthy (Json.obj cfs) = true := by
        simp [pyTruthy, List.isEmpty_iff, hcfs]
      simp only [ht, not_true, if_false, visibilityTry, htx, hv, visibilityDivide]
  · intro hv
    constructor
    · simp only [visibilityProp, hgcw]
      by_cases ht : pyTruthy (Json.obj cfs) = true
      · simp only [ht, not_true, if_false, visibilityTry, hv, visibilityDivide]
      · simp only [Bool.not_eq_true] at ht
        simp [ht]
    · simp only [visibilityProp, hgcw]
      have ht : pyTruthy (Json.arr (Json.obj cfs :: rest)) = true := by
        simp [pyTruthy]
      by_cases htx : pyTruthy (Json.obj cfs) = true
      · simp only [ht, not_true, if_false, visibilityTry, htx, hv, visibilityDivide]
      · simp only [Bool.not_eq_true] at htx
        simp [ht, visibilityTry, htx, visibilityDivide]

/-- Witness for claim C10: visibility 2500 m divides to 2.5 km in both
shapes; a record without visibility yields `None`. -/
theorem c10_visibility_witness :
    visibilityProp (some [("current", Json.obj [("weather",
      Json.obj [("visibility", Json.num 2500)])])]) = .ok (some (2500 / 1000)) ∧
    visibilityProp (some [("current", Json.obj [("weather",
      Json.arr [Json.obj [("visibility", Json.num 2500)]])])]) = .ok (some (2500 / 1000)) ∧
    visibilityProp (some [("current", Json.obj [("weather",
      Json.obj [("temperature", Json.num 1)])])]) = .ok none := by
  have h1 := (c10_visibility [("visibility", Json.num 2500)] 2500 []).1 rfl
  have h2 := (c10_visibility [("temperature", Json.num 1)] 0 []).2.1 rfl
  exact ⟨h1.1, h1.2, h2.1⟩
